import Mathlib

/-!
Verification of the containerized-data-importer upload proxy and DataVolume
admission webhook against its design document.

Part 1 embeds `pkg/apiserver/webhooks/datavolume-validate.go`: the DataVolume
spec validator and the `Admit` entry point.  Kubernetes library types
(`metav1.StatusCause`, `k8sfield.Path`, `resource.Quantity`) are modelled by
plain strings, dotted path strings and integers; external collaborators (the
Kubernetes client reads and `controller.ValidateCanCloneSourceAndTargetSpec`,
which live outside the sources at hand) are oracle functions threaded through
a `WebhookEnv`.

Part 2 models the upload proxy request pipeline from the design document,
since only its test file is available, and settles the proxy claims against
that model.
-/

/-- `metav1.StatusCause`: a cause type constant, a message and a field path. -/
structure StatusCause where
  causeType : String
  message : String
  field : String
deriving DecidableEq

/-- `metav1.CauseTypeFieldValueInvalid`. -/
def fieldValueInvalid : String := "FieldValueInvalid"

/-- `metav1.CauseTypeFieldValueNotFound`. -/
def fieldValueNotFound : String := "FieldValueNotFound"

/-- `metav1.CauseTypeFieldValueDuplicate`. -/
def fieldValueDuplicate : String := "FieldValueDuplicate"

/-- `k8sfield.Path.Child(c).String()`: appends a dotted component. -/
def child (p c : String) : String := p ++ "." ++ c

/-- `cdiv1alpha1.DataVolumeSourceHTTP` (only the URL participates in validation). -/
structure DataVolumeSourceHTTP where
  url : String
deriving DecidableEq

/-- `cdiv1alpha1.DataVolumeSourceS3`. -/
structure DataVolumeSourceS3 where
  url : String
deriving DecidableEq

/-- `cdiv1alpha1.DataVolumeSourceRegistry`. -/
structure DataVolumeSourceRegistry where
  url : String
deriving DecidableEq

/-- `cdiv1alpha1.DataVolumeSourcePVC` (clone source reference). -/
structure DataVolumeSourcePVC where
  nspace : String
  name : String
deriving DecidableEq

/-- `cdiv1alpha1.DataVolumeSourceUpload` (no fields used by validation). -/
structure DataVolumeSourceUpload where
deriving DecidableEq

/-- `cdiv1alpha1.DataVolumeBlankImage`. -/
structure DataVolumeBlankImage where
deriving DecidableEq

/-- `cdiv1alpha1.DataVolumeSourceImageio`. -/
structure DataVolumeSourceImageio where
  url : String
  diskID : String
  secretRef : String
  certConfigMap : String
deriving DecidableEq

/-- `cdiv1alpha1.DataVolumeSource`: one optional pointer per source kind.
The reflective loop in `validateDataVolumeSpec` walks exactly these fields. -/
structure DataVolumeSource where
  http : Option DataVolumeSourceHTTP
  s3 : Option DataVolumeSourceS3
  registry : Option DataVolumeSourceRegistry
  pvc : Option DataVolumeSourcePVC
  upload : Option DataVolumeSourceUpload
  blank : Option DataVolumeBlankImage
  imageio : Option DataVolumeSourceImageio
deriving DecidableEq

/-- A `DataVolumeSource` with every pointer nil, for building concrete specs. -/
def emptySource : DataVolumeSource :=
  { http := none, s3 := none, registry := none, pvc := none, upload := none,
    blank := none, imageio := none }

/-- `corev1.PersistentVolumeClaimSpec` restricted to the fields the webhook
reads: the access-mode list and `Resources.Requests["storage"]`.  The
`resource.Quantity` value is modelled as an integer byte count; a missing
"storage" key is `none`. -/
structure PersistentVolumeClaimSpec where
  accessModes : List String
  storageRequest : Option Int
deriving DecidableEq

/-- `cdiv1alpha1.DataVolumeSpec`: source, content type, target PVC spec. -/
structure DataVolumeSpec where
  source : DataVolumeSource
  contentType : String
  pvc : Option PersistentVolumeClaimSpec
deriving DecidableEq

/-- `cdiv1alpha1.DataVolume`: object metadata plus spec. -/
structure DataVolume where
  name : String
  nspace : String
  spec : DataVolumeSpec
deriving DecidableEq

/-- The reflective source count in `validateDataVolumeSpec`: the number of
non-nil pointers among the fields of `DataVolumeSource`. -/
def numberOfSources (s : DataVolumeSource) : Nat :=
  (if s.http.isSome then 1 else 0) + (if s.s3.isSome then 1 else 0) +
    (if s.registry.isSome then 1 else 0) + (if s.pvc.isSome then 1 else 0) +
    (if s.upload.isSome then 1 else 0) + (if s.blank.isSome then 1 else 0) +
    (if s.imageio.isSome then 1 else 0)

/-- Scheme extraction for the model of Go's `url.ParseRequestURI`: the
non-empty run of characters before the first "://".  The accumulator holds
the characters seen so far, reversed. -/
def schemeBefore : List Char → List Char → Option String
  | acc, ':' :: '/' :: '/' :: _ =>
    if acc.isEmpty then none else some (String.mk acc.reverse)
  | acc, c :: rest => schemeBefore (c :: acc) rest
  | _, [] => none

/-- Model of Go's `url.ParseRequestURI` reduced to what `validateSourceURL`
consumes: the URL's scheme when the URL is parseable, `none` otherwise. -/
def parseRequestURIScheme (s : String) : Option String :=
  schemeBefore [] s.data

/-- `validateSourceURL`: empty string on success, a message on failure. -/
def validateSourceURL (sourceURL : String) : String :=
  if sourceURL = "" then "source URL is empty"
  else
    match parseRequestURIScheme sourceURL with
    | none => "Invalid source URL: " ++ sourceURL
    | some scheme =>
      if scheme ≠ "http" ∧ scheme ≠ "https" then
        "Invalid source URL scheme: " ++ sourceURL
      else ""

/-- `validateDataVolumeName`: at most 55 characters. -/
def validateDataVolumeName (name : String) : List StatusCause :=
  if name.length > 55 then
    [⟨fieldValueInvalid, "Name of data volume cannot be more than 55 characters", ""⟩]
  else []

/-- Outcome of the Kubernetes client `Get` on the destination PVC in `Admit`:
not found, a non-not-found error, or found with the value of the
`AnnPopulatedFor` annotation. -/
inductive TargetPVCLookup where
  | notFound : TargetPVCLookup
  | getError : TargetPVCLookup
  | found (populatedFor : Option String) : TargetPVCLookup

/-- External collaborators of the webhook, threaded as oracles: the clone
source PVC lookup (collapsing a non-not-found `Get` error into the spec the
continuation sees, as the Go code falls through in that case), the
`controller.ValidateCanCloneSourceAndTargetSpec` verdict (`some msg` is an
error), and the destination-PVC lookup used by `Admit` on Create. -/
structure WebhookEnv where
  getSourcePVC : String → String → Option PersistentVolumeClaimSpec
  validateCanClone : PersistentVolumeClaimSpec → Option PersistentVolumeClaimSpec → Option String
  getTargetPVC : String → String → TargetPVCLookup

/-- `v1beta1.Operation` restricted to the operations the webhook inspects. -/
inductive Operation where
  | create : Operation
  | update : Operation
  | other : Operation
deriving DecidableEq

/-- The "Missing Data volume source" cause. -/
def missingSourceCause (field : String) : StatusCause :=
  ⟨fieldValueInvalid, "Missing Data volume source", child field "source"⟩

/-- The "Multiple Data volume sources" cause. -/
def multipleSourcesCause (field : String) : StatusCause :=
  ⟨fieldValueInvalid, "Multiple Data volume sources", child field "source"⟩

/-- The URL-bearing source and its field path, mirroring the
HTTP / S3 / Imageio if-else chain in `validateDataVolumeSpec`. -/
def urlAndField (field : String) (s : DataVolumeSource) : Option (String × String) :=
  match s.http with
  | some h => some (h.url, child (child (child field "source") "HTTP") "url")
  | none =>
    match s.s3 with
    | some s3 => some (s3.url, child (child (child field "source") "S3") "url")
    | none =>
      match s.imageio with
      | some im => some (im.url, child (child (child field "source") "Imageio") "url")
      | none => none

/-- The source-URL validity check: `some cause` is an early return. -/
def urlCheck (field : String) (s : DataVolumeSource) : Option StatusCause :=
  match urlAndField field s with
  | none => none
  | some (u, fld) =>
    if validateSourceURL u ≠ "" then
      some ⟨fieldValueInvalid, child field "source" ++ " " ++ validateSourceURL u, fld⟩
    else none

/-- The content-type enumeration check (empty, "kubevirt" or "archive"). -/
def contentTypeCheck (field : String) (spec : DataVolumeSpec) : Option StatusCause :=
  if spec.contentType ≠ "" ∧ spec.contentType ≠ "kubevirt" ∧ spec.contentType ≠ "archive" then
    some ⟨fieldValueInvalid, "ContentType not one of: kubevirt, archive", child field "contentType"⟩
  else none

/-- Blank source may not be combined with archive content type. -/
def blankArchiveCheck (field : String) (spec : DataVolumeSpec) : Option StatusCause :=
  if spec.source.blank.isSome ∧ spec.contentType = "archive" then
    some ⟨fieldValueInvalid, "SourceType cannot be blank and the contentType be archive",
      child field "contentType"⟩
  else none

/-- Registry source requires kubevirt (or empty) content type. -/
def registryContentTypeCheck (field : String) (spec : DataVolumeSpec) : Option StatusCause :=
  if spec.source.registry.isSome ∧ spec.contentType ≠ "" ∧ spec.contentType ≠ "kubevirt" then
    some ⟨fieldValueInvalid, "ContentType must be kubevirt when Source is Registry",
      child field "contentType"⟩
  else none

/-- Imageio source requires secretRef, certConfigMap and diskID. -/
def imageioCheck (field : String) (s : DataVolumeSource) : Option StatusCause :=
  match s.imageio with
  | some im =>
    if im.secretRef = "" ∨ im.certConfigMap = "" ∨ im.diskID = "" then
      some ⟨fieldValueInvalid,
        child (child field "source") "Imageio" ++ " source Imageio is not valid",
        child (child field "source") "Imageio"⟩
    else none
  | none => none

/-- PVC clone source checks: non-empty namespace and name, and on Create the
source lookup plus the clone-compatibility verdict. -/
def pvcSourceCheck (env : WebhookEnv) (op : Operation) (field : String)
    (spec : DataVolumeSpec) : Option StatusCause :=
  match spec.source.pvc with
  | none => none
  | some p =>
    if p.nspace = "" ∨ p.name = "" then
      some ⟨fieldValueInvalid, child (child field "source") "PVC" ++ " source PVC is not valid",
        child (child field "source") "PVC"⟩
    else if op = Operation.create then
      match env.getSourcePVC p.nspace p.name with
      | none =>
        some ⟨fieldValueNotFound,
          "Source PVC " ++ p.nspace ++ "/" ++ p.name ++ " doesn't exist",
          child (child field "source") "PVC"⟩
      | some srcSpec =>
        match env.validateCanClone srcSpec spec.pvc with
        | some msg => some ⟨fieldValueInvalid, msg, child field "PVC"⟩
        | none => none
    else none

/-- The tail of `validateDataVolumeSpec` from the `spec.PVC == nil` check on:
PVC presence, the storage request, then the access-mode checks.  `none`
models the Go runtime panic when `accessModes[0]` is evaluated on an empty
slice; `some []` is the successful fall-through. -/
def validatePVCPart (field : String) (pvcOpt : Option PersistentVolumeClaimSpec) :
    Option (List StatusCause) :=
  match pvcOpt with
  | none =>
    some [⟨fieldValueInvalid, "Missing Data volume PVC", child field "PVC"⟩]
  | some pvc =>
    match pvc.storageRequest with
    | none =>
      some [⟨fieldValueInvalid, "PVC size is missing",
        child (child (child (child field "PVC") "resources") "requests") "size"⟩]
    | some sz =>
      if sz = 0 ∨ sz < 0 then
        some [⟨fieldValueInvalid, "PVC size can't be equal or less than zero",
          child (child (child (child field "PVC") "resources") "requests") "size"⟩]
      else if 1 < pvc.accessModes.length then
        some [⟨fieldValueInvalid, "PVC multiple accessModes", child (child field "PVC") "accessModes"⟩]
      else
        match pvc.accessModes with
        | [] => none
        | a₀ :: _ =>
          if a₀ ≠ "ReadWriteOnce" ∧ a₀ ≠ "ReadOnlyMany" ∧ a₀ ≠ "ReadWriteMany" then
            some [⟨fieldValueInvalid,
              "Unsupported value: \"" ++ a₀ ++
                "\": supported values: \"ReadOnlyMany\", \"ReadWriteMany\", \"ReadWriteOnce\"",
              child (child field "PVC") "accessModes"⟩]
          else some []

/-- `validateDataVolumeSpec` after the source-count early returns. -/
def validateDataVolumeSpecRest (env : WebhookEnv) (op : Operation) (field : String)
    (spec : DataVolumeSpec) : Option (List StatusCause) :=
  match urlCheck field spec.source with
  | some c => some [c]
  | none =>
    match contentTypeCheck field spec with
    | some c => some [c]
    | none =>
      match blankArchiveCheck field spec with
      | some c => some [c]
      | none =>
        match registryContentTypeCheck field spec with
        | some c => some [c]
        | none =>
          match imageioCheck field spec.source with
          | some c => some [c]
          | none =>
            match pvcSourceCheck env op field spec with
            | some c => some [c]
            | none => validatePVCPart field spec.pvc

/-- `(*dataVolumeValidatingWebhook).validateDataVolumeSpec`.  Result `some cs`
is the returned cause list (`some []` admits); `none` models a panic. -/
def validateDataVolumeSpec (env : WebhookEnv) (op : Operation) (field : String)
    (spec : DataVolumeSpec) : Option (List StatusCause) :=
  let n := numberOfSources spec.source
  if n = 0 then some [missingSourceCause field]
  else if 1 < n then some [multipleSourcesCause field]
  else validateDataVolumeSpecRest env op field spec

/-- `v1beta1.AdmissionResponse` reduced to the verdict and the causes. -/
structure AdmissionResponse where
  allowed : Bool
  causes : List StatusCause
deriving DecidableEq

/-- `toAdmissionResponseError`: a not-allowed response carrying no causes. -/
def errorAdmissionResponse : AdmissionResponse := { allowed := false, causes := [] }

/-- `toRejectedAdmissionResponse`. -/
def toRejectedAdmissionResponse (cs : List StatusCause) : AdmissionResponse :=
  { allowed := false, causes := cs }

/-- `v1beta1.AdmissionReview` as `Admit` consumes it: the operation, whether
`validateDataVolumeResource` accepted the review's resource, and the decoded
old and new objects (`none` models a JSON unmarshal failure). -/
structure AdmissionReview where
  operation : Operation
  resourceValid : Bool
  object : Option DataVolume
  oldObject : Option DataVolume

/-- The Create-only destination-PVC gate in `Admit`: `some resp` is an early
return, `none` falls through to spec validation. -/
def admitCreatePVCGate (env : WebhookEnv) (dv : DataVolume) : Option AdmissionResponse :=
  match env.getTargetPVC dv.nspace dv.name with
  | TargetPVCLookup.getError => some errorAdmissionResponse
  | TargetPVCLookup.notFound => none
  | TargetPVCLookup.found populatedFor =>
    if populatedFor ≠ some dv.name then
      some (toRejectedAdmissionResponse
        [⟨fieldValueDuplicate, "Destination PVC already exists", "DataVolume.Name"⟩])
    else none

/-- `Admit` after the update-immutability gate: name length, the Create-only
destination-PVC gate, then spec validation. -/
def admitTail (env : WebhookEnv) (ar : AdmissionReview) (dv : DataVolume) :
    Option AdmissionResponse :=
  let nameCauses := validateDataVolumeName dv.name
  if nameCauses ≠ [] then some (toRejectedAdmissionResponse nameCauses)
  else
    let gate := if ar.operation = Operation.create then admitCreatePVCGate env dv else none
    match gate with
    | some resp => some resp
    | none =>
      match validateDataVolumeSpec env ar.operation "spec" dv.spec with
      | none => none
      | some [] => some { allowed := true, causes := [] }
      | some cs => some (toRejectedAdmissionResponse cs)

/-- `(*dataVolumeValidatingWebhook).Admit`.  `none` models a panic escaping
from spec validation. -/
def Admit (env : WebhookEnv) (ar : AdmissionReview) : Option AdmissionResponse :=
  if ar.resourceValid = false then some errorAdmissionResponse
  else
    match ar.object with
    | none => some errorAdmissionResponse
    | some dv =>
      if ar.operation = Operation.update then
        match ar.oldObject with
        | none => some errorAdmissionResponse
        | some oldDV =>
          if dv.spec ≠ oldDV.spec then
            some (toRejectedAdmissionResponse
              [⟨fieldValueDuplicate, "Cannot update DataVolume Spec", "DataVolume.Spec"⟩])
          else admitTail env ar dv
      else admitTail env ar dv

/-!
Part 2: the upload proxy.  The proxy implementation is absent from the
available sources (only `pkg/uploadproxy/uploadproxy_test.go` is present), so
the request pipeline, TLS client construction and backend resolution are
modelled from the design document and checked against the behavior the test
file exercises.
-/

/-- Modelled from the spec: the HTTP methods the proxy distinguishes — the
full-body submission (POST), the headers-only probe (HEAD) and the liveness
GET; `uploadproxy.go` is missing from the sources. -/
inductive Method where
  | post : Method
  | head : Method
  | get : Method
deriving DecidableEq

/-- Modelled from the spec: `token.Payload`, the claim produced by a
successful validation — operation, target name, namespace and resource kind. -/
structure TokenClaim where
  operation : String
  name : String
  nspace : String
  resource : String
deriving DecidableEq

/-- Modelled from the spec: the Target Readiness Record — "worker pod
scheduled" and "worker pod ready to accept traffic". -/
structure PodReadiness where
  scheduled : Bool
  ready : Bool
deriving DecidableEq

/-- Modelled from the spec: the outcome of the forwarded backend request —
either the backend is reached and responds with a status code, or the
transport fails (connection refused, TLS failure, timeout). -/
inductive BackendResponse where
  | reached (status : Nat) : BackendResponse
  | transportFailure : BackendResponse
deriving DecidableEq

/-- Modelled from the spec: an inbound request as the proxy inspects it. -/
structure ProxyRequest where
  method : Method
  path : String
  authHeader : Option String

/-- Modelled from the spec: `uploadProxyApp` — the token validator (whose
error carries an arbitrary message), the external readiness state, the
URL resolver and the backend transport, as the test file wires them. -/
structure UploadProxyApp where
  tokenValidator : String → Except String TokenClaim
  targetState : String → String → String → Option PodReadiness
  urlResolver : String → String → String → String
  backend : String → Method → BackendResponse

/-- Modelled from the spec: the fixed well-known synchronous upload path. -/
def uploadPathSync : String := "/v1alpha1/upload"

/-- Modelled from the spec: the fixed well-known liveness path. -/
def healthzPath : String := "/healthz"

/-- Modelled from the spec: the Authorization scheme check — the header must
carry the "Bearer " scheme, and the token is everything after it. -/
def stripBearer (h : String) : Option String :=
  match h.data with
  | 'B' :: 'e' :: 'a' :: 'r' :: 'e' :: 'r' :: ' ' :: rest => some (String.mk rest)
  | _ => none

/-- Modelled from the spec: the proxy request state machine
Received → Authenticated → Resolved → Forwarding → Completed, returning the
status code sent to the original caller.  Missing header or wrong scheme is
400, validation failure 401, target not found 404, target not ready 400,
backend transport failure 502, and a reached backend's status code is copied
verbatim.  The liveness path bypasses the whole chain. -/
def serveHTTP (app : UploadProxyApp) (req : ProxyRequest) : Nat :=
  if req.path = healthzPath then 200
  else if req.path = uploadPathSync ∧ (req.method = Method.post ∨ req.method = Method.head) then
    match req.authHeader with
    | none => 400
    | some h =>
      match stripBearer h with
      | none => 400
      | some tok =>
        match app.tokenValidator tok with
        | Except.error _ => 401
        | Except.ok claim =>
          match app.targetState claim.nspace claim.name claim.resource with
          | none => 404
          | some r =>
            if r.scheduled = true ∧ r.ready = true then
              match app.backend (app.urlResolver claim.nspace claim.name claim.resource) req.method with
              | BackendResponse.reached code => code
              | BackendResponse.transportFailure => 502
            else 400
  else 404

/-- Modelled from the spec: the TLS Credential Set as the `clientCreator`
fetches it — certificate, key and CA bundle bytes (each `none` on a fetch
failure) plus the certificate/key match verdict of the TLS library. -/
structure TLSCredentialFetchers where
  certBytes : Option (List Nat)
  keyBytes : Option (List Nat)
  bundleBytes : Option (List Nat)
  keyPairValid : List Nat → List Nat → Bool

/-- Modelled from the spec: the mutually-authenticated HTTP client — client
certificate and key plus the trusted-root pool. -/
structure MTLSClient where
  clientCert : List Nat
  clientKey : List Nat
  rootCAs : List Nat
deriving DecidableEq

/-- Modelled from the spec: `clientCreator.CreateClient` — loads each
credential component, fails on any missing component or a certificate/key
mismatch, and otherwise returns the configured client. -/
def createClient (cc : TLSCredentialFetchers) : Except String MTLSClient :=
  match cc.certBytes with
  | none => Except.error "error fetching client certificate"
  | some cert =>
    match cc.keyBytes with
    | none => Except.error "error fetching client key"
    | some key =>
      if cc.keyPairValid cert key then
        match cc.bundleBytes with
        | none => Except.error "error fetching CA bundle"
        | some bundle =>
          Except.ok { clientCert := cert, clientKey := key, rootCAs := bundle }
      else Except.error "invalid client certificate/key pair"

/-- Modelled from the spec: the external readiness state the Backend Resolver
reads — a map from (namespace, name, resource kind) to a readiness record. -/
structure TargetWorld where
  records : String → String → String → Option PodReadiness

/-- Modelled from the spec: the resolver verdict — not found, not ready, or a
resolved backend address. -/
inductive ResolveResult where
  | notFound : ResolveResult
  | notReady : ResolveResult
  | resolved (address : String) : ResolveResult
deriving DecidableEq

/-- Modelled from the spec: the Backend Address convention, deterministically
derived from the target's identity alone. -/
def uploadServerURL (nspace name resourceKind : String) : String :=
  "https://cdi-upload-" ++ name ++ "." ++ nspace ++ ".svc/" ++ resourceKind

/-- Modelled from the spec: `Resolve(namespace, name, resourceKind)` — a
single synchronous read of the external state.  The world is returned
alongside the verdict so that freedom from hidden state mutation is a
provable statement rather than an artifact of the embedding. -/
def resolve (w : TargetWorld) (nspace name resourceKind : String) :
    ResolveResult × TargetWorld :=
  match w.records nspace name resourceKind with
  | none => (ResolveResult.notFound, w)
  | some r =>
    if r.scheduled = true ∧ r.ready = true then
      (ResolveResult.resolved (uploadServerURL nspace name resourceKind), w)
    else (ResolveResult.notReady, w)

/-- The "PVC size is missing" cause. -/
def sizeMissingCause (field : String) : StatusCause :=
  ⟨fieldValueInvalid, "PVC size is missing",
    child (child (child (child field "PVC") "resources") "requests") "size"⟩

/-- The "PVC size can't be equal or less than zero" cause. -/
def sizeNonPositiveCause (field : String) : StatusCause :=
  ⟨fieldValueInvalid, "PVC size can't be equal or less than zero",
    child (child (child (child field "PVC") "resources") "requests") "size"⟩

/-- All checks of `validateDataVolumeSpec` that precede the storage-request
check pass: exactly one source, and each early-return gate declines. -/
def reachesCapacityCheck (env : WebhookEnv) (op : Operation) (spec : DataVolumeSpec) : Prop :=
  numberOfSources spec.source = 1 ∧
  urlCheck "spec" spec.source = none ∧
  contentTypeCheck "spec" spec = none ∧
  blankArchiveCheck "spec" spec = none ∧
  registryContentTypeCheck "spec" spec = none ∧
  imageioCheck "spec" spec.source = none ∧
  pvcSourceCheck env op "spec" spec = none

/-- A webhook environment whose oracles are inert, for concrete inputs. -/
def demoWebhookEnv : WebhookEnv :=
  { getSourcePVC := fun _ _ => none
    validateCanClone := fun _ _ => none
    getTargetPVC := fun _ _ => TargetPVCLookup.notFound }

/-- A spec with a blank source, kubevirt content, 1Gi storage and RWO. -/
def blankSpec : DataVolumeSpec :=
  { source := { emptySource with blank := some DataVolumeBlankImage.mk }
    contentType := ""
    pvc := some { accessModes := ["ReadWriteOnce"], storageRequest := some 1073741824 } }

/-- `blankSpec` with no source populated. -/
def noSourceSpec : DataVolumeSpec :=
  { blankSpec with source := emptySource }

/-- `blankSpec` with two sources populated. -/
def twoSourceSpec : DataVolumeSpec :=
  { blankSpec with
    source :=
      { emptySource with
        blank := some DataVolumeBlankImage.mk
        upload := some DataVolumeSourceUpload.mk } }

/-- `blankSpec` with the storage request absent. -/
def noStorageSpec : DataVolumeSpec :=
  { blankSpec with pvc := some { accessModes := ["ReadWriteOnce"], storageRequest := none } }

/-- `blankSpec` with a zero storage request. -/
def zeroStorageSpec : DataVolumeSpec :=
  { blankSpec with pvc := some { accessModes := ["ReadWriteOnce"], storageRequest := some 0 } }

/-- `blankSpec` with an empty access-mode list: it passes every check before
the access-mode inspection. -/
def emptyAccessModesSpec : DataVolumeSpec :=
  { blankSpec with pvc := some { accessModes := [], storageRequest := some 1073741824 } }

/-- A DataVolume carrying `blankSpec`. -/
def demoDV : DataVolume := { name := "testdv", nspace := "default", spec := blankSpec }

/-- A DataVolume with the same identity as `demoDV` but a different spec. -/
def demoDVLarger : DataVolume :=
  { name := "testdv", nspace := "default"
    spec := { blankSpec with
      pvc := some { accessModes := ["ReadWriteOnce"], storageRequest := some 2147483648 } } }

/-- An Update review replacing `demoDVLarger`'s spec with `demoDV`'s. -/
def demoUpdateReview : AdmissionReview :=
  { operation := Operation.update, resourceValid := true
    object := some demoDV, oldObject := some demoDVLarger }

/-- The "Cannot update DataVolume Spec" response `Admit` produces. -/
def specUpdateRejectedResponse : AdmissionResponse :=
  toRejectedAdmissionResponse
    [⟨fieldValueDuplicate, "Cannot update DataVolume Spec", "DataVolume.Spec"⟩]

/-- The claim the test file's `validateSuccess` stub produces. -/
def demoClaim : TokenClaim :=
  { operation := "Upload", name := "testpvc", nspace := "default"
    resource := "persistentvolumeclaims" }

/-- A readiness record with the worker scheduled and ready. -/
def demoReady : PodReadiness := { scheduled := true, ready := true }

/-- A proxy app resolving `demoClaim`'s target as ready, with the given
backend behavior, mirroring `setupProxyTests` in the test file. -/
def demoApp (b : BackendResponse) : UploadProxyApp :=
  { tokenValidator := fun t =>
      if t = "valid" then Except.ok demoClaim else Except.error "Bad token"
    targetState := fun nspace name resource =>
      if nspace = "default" ∧ name = "testpvc" ∧ resource = "persistentvolumeclaims" then
        some demoReady
      else none
    urlResolver := uploadServerURL
    backend := fun _ _ => b }

/-- A proxy app whose validator always fails with the given message. -/
def demoFailApp (e : String) : UploadProxyApp :=
  { demoApp BackendResponse.transportFailure with tokenValidator := fun _ => Except.error e }

/-- A proxy app that cannot find `demoClaim`'s target. -/
def demoNotFoundApp : UploadProxyApp :=
  { demoApp BackendResponse.transportFailure with targetState := fun _ _ _ => none }

/-- A proxy app whose target exists but whose worker is not ready. -/
def demoNotReadyApp : UploadProxyApp :=
  { demoApp BackendResponse.transportFailure with
    targetState := fun _ _ _ => some { scheduled := true, ready := false } }

/-- A POST upload request with the given Authorization header. -/
def postReq (auth : Option String) : ProxyRequest :=
  { method := Method.post, path := uploadPathSync, authHeader := auth }

/-- A HEAD upload request with the given Authorization header. -/
def headReq (auth : Option String) : ProxyRequest :=
  { method := Method.head, path := uploadPathSync, authHeader := auth }

/-- Credential fetchers that deliver a matching triple. -/
def demoGoodFetchers : TLSCredentialFetchers :=
  { certBytes := some [1, 2], keyBytes := some [3, 4], bundleBytes := some [5, 6]
    keyPairValid := fun c k => c = [1, 2] ∧ k = [3, 4] }

/-- Credential fetchers with the CA bundle missing. -/
def demoNoBundleFetchers : TLSCredentialFetchers :=
  { demoGoodFetchers with bundleBytes := none }

/-- Credential fetchers whose key does not match the certificate. -/
def demoMismatchFetchers : TLSCredentialFetchers :=
  { demoGoodFetchers with keyBytes := some [9, 9] }

/-- A world in which exactly `demoClaim`'s target is ready. -/
def demoWorld : TargetWorld :=
  { records := fun nspace name resource =>
      if nspace = "default" ∧ name = "testpvc" ∧ resource = "persistentvolumeclaims" then
        some demoReady
      else none }

/-- C1: for every request carrying a valid token whose target exists and is
ready, the proxy forwards to the resolved backend and the status code
returned to the caller equals the backend's response status exactly, for
both the POST submission and the HEAD probe. -/
theorem c1_proxy_copies_backend_status (app : UploadProxyApp) (req : ProxyRequest)
    (h tok : String) (claim : TokenClaim) (r : PodReadiness) (code : Nat)
    (hpath : req.path = uploadPathSync)
    (hmethod : req.method = Method.post ∨ req.method = Method.head)
    (hauth : req.authHeader = some h)
    (hscheme : stripBearer h = some tok)
    (hval : app.tokenValidator tok = Except.ok claim)
    (hstate : app.targetState claim.nspace claim.name claim.resource = some r)
    (hsched : r.scheduled = true) (hready : r.ready = true)
    (hbackend : app.backend (app.urlResolver claim.nspace claim.name claim.resource) req.method
      = BackendResponse.reached code) :
    serveHTTP app req = code := by
  rcases hmethod with hm | hm <;> rw [hm] at hbackend <;>
    simp [serveHTTP, uploadPathSync, healthzPath, hpath, hauth, hm, hscheme, hval, hstate,
      hsched, hready, hbackend]

/-- C1 witness: backend 200 yields caller 200 and backend 500 yields caller
500, for both the POST submission and the HEAD probe. -/
theorem c1_witness :
    serveHTTP (demoApp (BackendResponse.reached 200)) (postReq (some "Bearer valid")) = 200 ∧
    serveHTTP (demoApp (BackendResponse.reached 500)) (postReq (some "Bearer valid")) = 500 ∧
    serveHTTP (demoApp (BackendResponse.reached 200)) (headReq (some "Bearer valid")) = 200 ∧
    serveHTTP (demoApp (BackendResponse.reached 500)) (headReq (some "Bearer valid")) = 500 := by
  refine ⟨?_, ?_, ?_, ?_⟩
  · exact c1_proxy_copies_backend_status _ _ "Bearer valid" "valid" demoClaim demoReady 200
      rfl (Or.inl rfl) rfl (by decide) rfl rfl rfl rfl rfl
  · exact c1_proxy_copies_backend_status _ _ "Bearer valid" "valid" demoClaim demoReady 500
      rfl (Or.inl rfl) rfl (by decide) rfl rfl rfl rfl rfl
  · exact c1_proxy_copies_backend_status _ _ "Bearer valid" "valid" demoClaim demoReady 200
      rfl (Or.inr rfl) rfl (by decide) rfl rfl rfl rfl rfl
  · exact c1_proxy_copies_backend_status _ _ "Bearer valid" "valid" demoClaim demoReady 500
      rfl (Or.inr rfl) rfl (by decide) rfl rfl rfl rfl rfl

/-- C2: an upload request with no Authorization header, or one whose header
does not carry the expected scheme, is answered 400.  The token validator,
readiness state and backend are universally quantified, so the verdict is
reached without consulting any of them. -/
theorem c2_missing_or_malformed_auth_rejected (app : UploadProxyApp) (req : ProxyRequest)
    (hpath : req.path = uploadPathSync)
    (hmethod : req.method = Method.post ∨ req.method = Method.head)
    (hauth : req.authHeader = none ∨
      ∃ h, req.authHeader = some h ∧ stripBearer h = none) :
    serveHTTP app req = 400 := by
  rcases hauth with hnone | ⟨h, hsome, hstrip⟩
  · rcases hmethod with hm | hm <;>
      simp [serveHTTP, uploadPathSync, healthzPath, hpath, hm, hnone]
  · rcases hmethod with hm | hm <;>
      simp [serveHTTP, uploadPathSync, healthzPath, hpath, hm, hsome, hstrip]

/-- C2 witness: absent header and the literal "Beereer valid" header both
yield 400 against an app whose validator and resolver would otherwise
succeed. -/
theorem c2_witness :
    serveHTTP (demoApp (BackendResponse.reached 200)) (postReq none) = 400 ∧
    serveHTTP (demoApp (BackendResponse.reached 200)) (postReq (some "Beereer valid")) = 400 := by
  constructor
  · exact c2_missing_or_malformed_auth_rejected _ _ rfl (Or.inl rfl) (Or.inl rfl)
  · exact c2_missing_or_malformed_auth_rejected _ _ rfl (Or.inl rfl)
      (Or.inr ⟨"Beereer valid", rfl, by decide⟩)

/-- C3: a request whose Authorization header is well-formed but whose token
fails validation is answered 401, and the 401 does not depend on which
validator error occurred (the error message is universally quantified). -/
theorem c3_invalid_token_unauthorized (app : UploadProxyApp) (req : ProxyRequest)
    (h tok e : String)
    (hpath : req.path = uploadPathSync)
    (hmethod : req.method = Method.post ∨ req.method = Method.head)
    (hauth : req.authHeader = some h)
    (hscheme : stripBearer h = some tok)
    (hval : app.tokenValidator tok = Except.error e) :
    serveHTTP app req = 401 := by
  rcases hmethod with hm | hm <;>
    simp [serveHTTP, uploadPathSync, healthzPath, hpath, hauth, hm, hscheme, hval]

/-- C3 witness: two different validator errors both surface as 401. -/
theorem c3_witness :
    serveHTTP (demoFailApp "Bad token") (postReq (some "Bearer valid")) = 401 ∧
    serveHTTP (demoFailApp "token expired") (postReq (some "Bearer valid")) = 401 := by
  constructor
  · exact c3_invalid_token_unauthorized _ _ "Bearer valid" "valid" "Bad token"
      rfl (Or.inl rfl) rfl (by decide) rfl
  · exact c3_invalid_token_unauthorized _ _ "Bearer valid" "valid" "token expired"
      rfl (Or.inl rfl) rfl (by decide) rfl

/-- C4: with a valid token, an absent target is answered 404 while a target
whose worker is not both scheduled and ready is answered 400; the two codes
are distinct. -/
theorem c4_not_found_vs_not_ready (app : UploadProxyApp) (req : ProxyRequest)
    (h tok : String) (claim : TokenClaim)
    (hpath : req.path = uploadPathSync)
    (hmethod : req.method = Method.post ∨ req.method = Method.head)
    (hauth : req.authHeader = some h)
    (hscheme : stripBearer h = some tok)
    (hval : app.tokenValidator tok = Except.ok claim) :
    (app.targetState claim.nspace claim.name claim.resource = none →
      serveHTTP app req = 404) ∧
    (∀ r, app.targetState claim.nspace claim.name claim.resource = some r →
      ¬(r.scheduled = true ∧ r.ready = true) → serveHTTP app req = 400) ∧
    (404 : Nat) ≠ 400 := by
  refine ⟨?_, ?_, by decide⟩
  · intro hstate
    rcases hmethod with hm | hm <;>
      simp [serveHTTP, uploadPathSync, healthzPath, hpath, hauth, hm, hscheme, hval, hstate]
  · intro r hstate hnotready
    rcases hmethod with hm | hm <;>
      simp [serveHTTP, uploadPathSync, healthzPath, hpath, hauth, hm, hscheme, hval, hstate,
        hnotready]

/-- C4 witness: a missing target yields 404 and an unready target yields 400
for the same valid token. -/
theorem c4_witness :
    serveHTTP demoNotFoundApp (postReq (some "Bearer valid")) = 404 ∧
    serveHTTP demoNotReadyApp (postReq (some "Bearer valid")) = 400 := by
  constructor
  · exact (c4_not_found_vs_not_ready demoNotFoundApp _ "Bearer valid" "valid" demoClaim
      rfl (Or.inl rfl) rfl (by decide) rfl).1 rfl
  · exact (c4_not_found_vs_not_ready demoNotReadyApp _ "Bearer valid" "valid" demoClaim
      rfl (Or.inl rfl) rfl (by decide) rfl).2.1 _ rfl (by decide)

/-- C5: `CreateClient` returns a client exactly when the certificate, the
matching key and the CA bundle are all available; whenever a component is
missing or the pair mismatches, it returns an error rather than a client. -/
theorem c5_create_client_requires_full_credentials (cc : TLSCredentialFetchers) :
    ((∃ cert key bundle, cc.certBytes = some cert ∧ cc.keyBytes = some key ∧
        cc.bundleBytes = some bundle ∧ cc.keyPairValid cert key = true) ↔
      ∃ cl, createClient cc = Except.ok cl) ∧
    ((cc.certBytes = none ∨ cc.keyBytes = none ∨ cc.bundleBytes = none ∨
        (∀ cert key, cc.certBytes = some cert → cc.keyBytes = some key →
          cc.keyPairValid cert key = false)) →
      ∃ msg, createClient cc = Except.error msg) := by
  constructor
  · constructor
    · rintro ⟨cert, key, bundle, hc, hk, hb, hv⟩
      exact ⟨⟨cert, key, bundle⟩, by simp [createClient, hc, hk, hb, hv]⟩
    · rintro ⟨cl, hcl⟩
      rcases hcert : cc.certBytes with _ | cert
      · simp [createClient, hcert] at hcl
      rcases hkey : cc.keyBytes with _ | key
      · simp [createClient, hcert, hkey] at hcl
      by_cases hvalid : cc.keyPairValid cert key = true
      · rcases hbundle : cc.bundleBytes with _ | bundle
        · simp [createClient, hcert, hkey, hvalid, hbundle] at hcl
        · exact ⟨cert, key, bundle, rfl, rfl, rfl, hvalid⟩
      · simp [createClient, hcert, hkey, hvalid] at hcl
  · intro hbad
    rcases hcert : cc.certBytes with _ | cert
    · exact ⟨"error fetching client certificate", by simp [createClient, hcert]⟩
    rcases hkey : cc.keyBytes with _ | key
    · exact ⟨"error fetching client key", by simp [createClient, hcert, hkey]⟩
    by_cases hvalid : cc.keyPairValid cert key = true
    · rcases hbundle : cc.bundleBytes with _ | bundle
      · exact ⟨"error fetching CA bundle",
          by simp [createClient, hcert, hkey, hvalid, hbundle]⟩
      · rcases hbad with hc | hk | hb | hmm
        · rw [hc] at hcert; cases hcert
        · rw [hk] at hkey; cases hkey
        · rw [hb] at hbundle; cases hbundle
        · rw [hmm cert key hcert hkey] at hvalid; cases hvalid
    · exact ⟨"invalid client certificate/key pair",
        by simp [createClient, hcert, hkey, hvalid]⟩

/-- C5 witness: a matching triple yields a client; a missing bundle and a
mismatched key each yield an error. -/
theorem c5_witness :
    (∃ cl, createClient demoGoodFetchers = Except.ok cl) ∧
    (∃ msg, createClient demoNoBundleFetchers = Except.error msg) ∧
    (∃ msg, createClient demoMismatchFetchers = Except.error msg) := by
  refine ⟨?_, ?_, ?_⟩
  · exact (c5_create_client_requires_full_credentials demoGoodFetchers).1.mp
      ⟨[1, 2], [3, 4], [5, 6], rfl, rfl, rfl, by decide⟩
  · exact (c5_create_client_requires_full_credentials demoNoBundleFetchers).2
      (Or.inr (Or.inr (Or.inl rfl)))
  · exact (c5_create_client_requires_full_credentials demoMismatchFetchers).2
      (Or.inr (Or.inr (Or.inr (fun cert key hc hk => by
        cases hc; cases hk; decide))))

/-- C9: resolving a ready target leaves the external state untouched and, run
twice in sequence, returns the same backend address both times; the address
is derived from the target's identity alone. -/
theorem c9_resolution_idempotent (w : TargetWorld) (nspace name resourceKind : String)
    (r : PodReadiness)
    (hrec : w.records nspace name resourceKind = some r)
    (hsched : r.scheduled = true) (hready : r.ready = true) :
    (resolve w nspace name resourceKind).1
        = ResolveResult.resolved (uploadServerURL nspace name resourceKind) ∧
    (resolve w nspace name resourceKind).2 = w ∧
    (resolve (resolve w nspace name resourceKind).2 nspace name resourceKind).1
        = (resolve w nspace name resourceKind).1 := by
  have h1 : resolve w nspace name resourceKind
      = (ResolveResult.resolved (uploadServerURL nspace name resourceKind), w) := by
    simp [resolve, hrec, hsched, hready]
  refine ⟨by simp [h1], by simp [h1], by simp [h1]⟩

/-- C9 witness: the demo world resolves its ready target to the same address
twice with no state change. -/
theorem c9_witness :
    (resolve demoWorld "default" "testpvc" "persistentvolumeclaims").1
        = ResolveResult.resolved (uploadServerURL "default" "testpvc" "persistentvolumeclaims") ∧
    (resolve demoWorld "default" "testpvc" "persistentvolumeclaims").2 = demoWorld ∧
    (resolve (resolve demoWorld "default" "testpvc" "persistentvolumeclaims").2
        "default" "testpvc" "persistentvolumeclaims").1
      = (resolve demoWorld "default" "testpvc" "persistentvolumeclaims").1 :=
  c9_resolution_idempotent demoWorld "default" "testpvc" "persistentvolumeclaims"
    demoReady rfl rfl rfl

lemma urlAndField_snd_ne (s : DataVolumeSource) (u fld : String)
    (h : urlAndField "spec" s = some (u, fld)) : fld ≠ child "spec" "source" := by
  rcases hhttp : s.http with _ | ht <;> rcases hs3 : s.s3 with _ | h3 <;>
    rcases him : s.imageio with _ | hi <;>
    simp [urlAndField, hhttp, hs3, him] at h
  all_goals obtain ⟨hu, hf⟩ := h
  all_goals subst hf
  all_goals simp [child]

lemma urlCheck_field_ne (s : DataVolumeSource) (c : StatusCause)
    (h : urlCheck "spec" s = some c) : c.field ≠ child "spec" "source" := by
  intro heq
  unfold urlCheck at h
  split at h
  · cases h
  · rename_i u fld huf
    split at h
    · cases h
      simp only [] at heq
      exact urlAndField_snd_ne s u fld huf heq
    · cases h

lemma contentTypeCheck_field_ne (spec : DataVolumeSpec) (c : StatusCause)
    (h : contentTypeCheck "spec" spec = some c) : c.field ≠ child "spec" "source" := by
  intro heq
  unfold contentTypeCheck at h
  repeat' split at h
  all_goals cases h
  all_goals simp [child] at heq

lemma blankArchiveCheck_field_ne (spec : DataVolumeSpec) (c : StatusCause)
    (h : blankArchiveCheck "spec" spec = some c) : c.field ≠ child "spec" "source" := by
  intro heq
  unfold blankArchiveCheck at h
  repeat' split at h
  all_goals cases h
  all_goals simp [child] at heq

lemma registryContentTypeCheck_field_ne (spec : DataVolumeSpec) (c : StatusCause)
    (h : registryContentTypeCheck "spec" spec = some c) : c.field ≠ child "spec" "source" := by
  intro heq
  unfold registryContentTypeCheck at h
  repeat' split at h
  all_goals cases h
  all_goals simp [child] at heq

lemma imageioCheck_field_ne (s : DataVolumeSource) (c : StatusCause)
    (h : imageioCheck "spec" s = some c) : c.field ≠ child "spec" "source" := by
  intro heq
  unfold imageioCheck at h
  repeat' split at h
  all_goals cases h
  all_goals simp [child] at heq

lemma pvcSourceCheck_field_ne (env : WebhookEnv) (op : Operation) (spec : DataVolumeSpec)
    (c : StatusCause) (h : pvcSourceCheck env op "spec" spec = some c) :
    c.field ≠ child "spec" "source" := by
  intro heq
  unfold pvcSourceCheck at h
  repeat' split at h
  all_goals cases h
  all_goals simp [child] at heq

lemma validatePVCPart_shape (pvcOpt : Option PersistentVolumeClaimSpec) :
    validatePVCPart "spec" pvcOpt = none ∨ validatePVCPart "spec" pvcOpt = some [] ∨
    ∃ c, validatePVCPart "spec" pvcOpt = some [c] ∧ c.field ≠ child "spec" "source" := by
  unfold validatePVCPart
  repeat' split
  all_goals first
    | exact Or.inl rfl
    | exact Or.inr (Or.inl rfl)
    | exact Or.inr (Or.inr ⟨_, rfl, by simp [child]⟩)

lemma rest_shape (env : WebhookEnv) (op : Operation) (spec : DataVolumeSpec) :
    validateDataVolumeSpecRest env op "spec" spec = none ∨
    validateDataVolumeSpecRest env op "spec" spec = some [] ∨
    ∃ c, validateDataVolumeSpecRest env op "spec" spec = some [c] ∧
      c.field ≠ child "spec" "source" := by
  unfold validateDataVolumeSpecRest
  rcases h1 : urlCheck "spec" spec.source with _ | c1
  case some => exact Or.inr (Or.inr ⟨c1, rfl, urlCheck_field_ne _ _ h1⟩)
  rcases h2 : contentTypeCheck "spec" spec with _ | c2
  case some => exact Or.inr (Or.inr ⟨c2, rfl, contentTypeCheck_field_ne _ _ h2⟩)
  rcases h3 : blankArchiveCheck "spec" spec with _ | c3
  case some => exact Or.inr (Or.inr ⟨c3, rfl, blankArchiveCheck_field_ne _ _ h3⟩)
  rcases h4 : registryContentTypeCheck "spec" spec with _ | c4
  case some => exact Or.inr (Or.inr ⟨c4, rfl, registryContentTypeCheck_field_ne _ _ h4⟩)
  rcases h5 : imageioCheck "spec" spec.source with _ | c5
  case some => exact Or.inr (Or.inr ⟨c5, rfl, imageioCheck_field_ne _ _ h5⟩)
  rcases h6 : pvcSourceCheck env op "spec" spec with _ | c6
  case some => exact Or.inr (Or.inr ⟨c6, rfl, pvcSourceCheck_field_ne _ _ _ _ h6⟩)
  exact validatePVCPart_shape spec.pvc

lemma validate_ok_rest (env : WebhookEnv) (op : Operation) (spec : DataVolumeSpec)
    (h : validateDataVolumeSpec env op "spec" spec = some []) :
    validateDataVolumeSpecRest env op "spec" spec = some [] := by
  simp only [validateDataVolumeSpec] at h
  split at h
  · simp at h
  · split at h
    · simp at h
    · exact h

lemma rest_ok_pvc (env : WebhookEnv) (op : Operation) (spec : DataVolumeSpec)
    (h : validateDataVolumeSpecRest env op "spec" spec = some []) :
    validatePVCPart "spec" spec.pvc = some [] := by
  unfold validateDataVolumeSpecRest at h
  repeat' split at h
  all_goals first
    | (exact absurd h (by simp))
    | exact h

lemma validatePVCPart_ok (pvcOpt : Option PersistentVolumeClaimSpec)
    (h : validatePVCPart "spec" pvcOpt = some []) :
    ∃ pvc sz, pvcOpt = some pvc ∧ pvc.storageRequest = some sz ∧ 0 < sz := by
  rcases pvcOpt with _ | pvc
  · simp [validatePVCPart] at h
  · rcases hsz : pvc.storageRequest with _ | sz
    · simp [validatePVCPart, hsz] at h
    · refine ⟨pvc, sz, rfl, hsz, ?_⟩
      by_cases hz : sz = 0 ∨ sz < 0
      · simp [validatePVCPart, hsz, hz] at h
      · omega

/-- C6: the webhook's spec validation rejects a spec with zero populated
sources with the "Missing Data volume source" cause and a spec with two or
more populated sources with the "Multiple Data volume sources" cause, and
the source-count check passes exactly when one source alternative is
populated. -/
theorem c6_exactly_one_source (env : WebhookEnv) (op : Operation) (spec : DataVolumeSpec) :
    (numberOfSources spec.source = 0 →
      validateDataVolumeSpec env op "spec" spec = some [missingSourceCause "spec"]) ∧
    (1 < numberOfSources spec.source →
      validateDataVolumeSpec env op "spec" spec = some [multipleSourcesCause "spec"]) ∧
    ((validateDataVolumeSpec env op "spec" spec ≠ some [missingSourceCause "spec"] ∧
      validateDataVolumeSpec env op "spec" spec ≠ some [multipleSourcesCause "spec"]) ↔
      numberOfSources spec.source = 1) := by
  refine ⟨fun h0 => by simp [validateDataVolumeSpec, h0], fun h2 => ?_, ?_, ?_⟩
  · have hne : ¬ numberOfSources spec.source = 0 := by omega
    simp [validateDataVolumeSpec, hne, h2]
  · rintro ⟨hm, hmul⟩
    by_contra hne
    rcases Nat.eq_zero_or_pos (numberOfSources spec.source) with h0 | hpos
    · exact hm (by simp [validateDataVolumeSpec, h0])
    · have h2 : 1 < numberOfSources spec.source := by omega
      have hne0 : ¬ numberOfSources spec.source = 0 := by omega
      exact hmul (by simp [validateDataVolumeSpec, hne0, h2])
  · intro h1
    have hr : validateDataVolumeSpec env op "spec" spec
        = validateDataVolumeSpecRest env op "spec" spec := by
      simp [validateDataVolumeSpec, h1]
    rcases rest_shape env op spec with hs | hs | ⟨c, hc, hfld⟩
    · rw [hr, hs]; exact ⟨by simp, by simp⟩
    · rw [hr, hs]; exact ⟨by simp, by simp⟩
    · rw [hr, hc]
      constructor
      · intro heq
        have hc2 : c = missingSourceCause "spec" := by simpa using heq
        exact hfld (hc2 ▸ rfl)
      · intro heq
        have hc2 : c = multipleSourcesCause "spec" := by simpa using heq
        exact hfld (hc2 ▸ rfl)

/-- C6 witness: zero sources is rejected as missing, two sources as multiple,
and a single blank source passes the source-count check. -/
theorem c6_witness :
    validateDataVolumeSpec demoWebhookEnv Operation.create "spec" noSourceSpec
        = some [missingSourceCause "spec"] ∧
    validateDataVolumeSpec demoWebhookEnv Operation.create "spec" twoSourceSpec
        = some [multipleSourcesCause "spec"] ∧
    (validateDataVolumeSpec demoWebhookEnv Operation.create "spec" blankSpec
        ≠ some [missingSourceCause "spec"] ∧
      validateDataVolumeSpec demoWebhookEnv Operation.create "spec" blankSpec
        ≠ some [multipleSourcesCause "spec"]) :=
  ⟨(c6_exactly_one_source demoWebhookEnv Operation.create noSourceSpec).1 (by decide),
    (c6_exactly_one_source demoWebhookEnv Operation.create twoSourceSpec).2.1 (by decide),
    (c6_exactly_one_source demoWebhookEnv Operation.create blankSpec).2.2.mpr (by decide)⟩

/-- C7: a spec whose validation succeeds has a present and strictly positive
storage request; a spec that reaches the capacity check with the storage
request absent is rejected as missing, and with a non-positive request as
non-positive. -/
theorem c7_admitted_storage_positive (env : WebhookEnv) (op : Operation)
    (spec : DataVolumeSpec) :
    (validateDataVolumeSpec env op "spec" spec = some [] →
      ∃ pvc sz, spec.pvc = some pvc ∧ pvc.storageRequest = some sz ∧ 0 < sz) ∧
    (∀ pvc, reachesCapacityCheck env op spec → spec.pvc = some pvc →
      pvc.storageRequest = none →
      validateDataVolumeSpec env op "spec" spec = some [sizeMissingCause "spec"]) ∧
    (∀ pvc sz, reachesCapacityCheck env op spec → spec.pvc = some pvc →
      pvc.storageRequest = some sz → sz ≤ 0 →
      validateDataVolumeSpec env op "spec" spec = some [sizeNonPositiveCause "spec"]) := by
  refine ⟨fun hok => ?_, fun pvc hcap hpvc hsz => ?_, fun pvc sz hcap hpvc hsz hle => ?_⟩
  · exact validatePVCPart_ok _ (rest_ok_pvc _ _ _ (validate_ok_rest _ _ _ hok))
  · obtain ⟨h1, hurl, hct, hba, hreg, him, hps⟩ := hcap
    have hr : validateDataVolumeSpec env op "spec" spec
        = validateDataVolumeSpecRest env op "spec" spec := by
      simp [validateDataVolumeSpec, h1]
    rw [hr]
    unfold validateDataVolumeSpecRest
    simp only [hurl, hct, hba, hreg, him, hps]
    simp [validatePVCPart, hpvc, hsz, sizeMissingCause]
  · obtain ⟨h1, hurl, hct, hba, hreg, him, hps⟩ := hcap
    have hr : validateDataVolumeSpec env op "spec" spec
        = validateDataVolumeSpecRest env op "spec" spec := by
      simp [validateDataVolumeSpec, h1]
    rw [hr]
    unfold validateDataVolumeSpecRest
    simp only [hurl, hct, hba, hreg, him, hps]
    have hz : sz = 0 ∨ sz < 0 := by omega
    simp [validatePVCPart, hpvc, hsz, hz, sizeNonPositiveCause]

/-- C7 witness: the blank demo spec is admitted with a positive request; the
same spec with the storage request removed is rejected as missing, and with
a zero request as non-positive. -/
theorem c7_witness :
    (∃ pvc sz, blankSpec.pvc = some pvc ∧ pvc.storageRequest = some sz ∧ 0 < sz) ∧
    validateDataVolumeSpec demoWebhookEnv Operation.create "spec" noStorageSpec
        = some [sizeMissingCause "spec"] ∧
    validateDataVolumeSpec demoWebhookEnv Operation.create "spec" zeroStorageSpec
        = some [sizeNonPositiveCause "spec"] :=
  ⟨(c7_admitted_storage_positive demoWebhookEnv Operation.create blankSpec).1 (by decide),
    (c7_admitted_storage_positive demoWebhookEnv Operation.create noStorageSpec).2.1
      ⟨["ReadWriteOnce"], none⟩
      ⟨by decide, by decide, by decide, by decide, by decide, by decide, by decide⟩ rfl rfl,
    (c7_admitted_storage_positive demoWebhookEnv Operation.create zeroStorageSpec).2.2
      ⟨["ReadWriteOnce"], some 0⟩ 0
      ⟨by decide, by decide, by decide, by decide, by decide, by decide, by decide⟩ rfl rfl
      (by decide)⟩

/-- C8: on an Update review, `Admit` answers not-allowed whenever the new
spec differs from the old one, so the spec of an admitted DataVolume never
changes across admitted updates. -/
theorem c8_update_spec_immutable (env : WebhookEnv) (ar : AdmissionReview)
    (dv oldDV : DataVolume) (resp : AdmissionResponse)
    (hop : ar.operation = Operation.update)
    (hobj : ar.object = some dv) (hold : ar.oldObject = some oldDV)
    (hresp : Admit env ar = some resp) :
    (dv.spec ≠ oldDV.spec → resp.allowed = false) ∧
    (resp.allowed = true → dv.spec = oldDV.spec) := by
  have key : resp.allowed = true → dv.spec = oldDV.spec := by
    intro hallow
    by_contra hne
    rcases hrv : ar.resourceValid with _ | _
    · simp [Admit, hrv] at hresp
      rw [← hresp] at hallow
      simp [errorAdmissionResponse] at hallow
    · simp [Admit, hrv, hobj, hold, hop, hne] at hresp
      rw [← hresp] at hallow
      simp [toRejectedAdmissionResponse] at hallow
  refine ⟨fun hne => ?_, key⟩
  by_cases hallow : resp.allowed = true
  · exact absurd (key hallow) hne
  · simpa using hallow

/-- C8 witness: an Update review whose new spec shrinks the storage request
is answered not-allowed. -/
theorem c8_witness :
    Admit demoWebhookEnv demoUpdateReview = some specUpdateRejectedResponse ∧
    specUpdateRejectedResponse.allowed = false :=
  ⟨by decide,
    (c8_update_spec_immutable demoWebhookEnv demoUpdateReview demoDV demoDVLarger
      specUpdateRejectedResponse rfl rfl rfl (by decide)).1 (by decide)⟩

/-- C10: contrary to the claim that the access-mode check is evaluated only
on a non-empty list, a spec that passes every earlier check with an empty
`accessModes` list drives `validateDataVolumeSpec` into the
`accessModes[0]` read on an empty slice — the modelled panic (`none`),
matching the unguarded index after the `len(accessModes) > 1` test. -/
theorem c10_empty_access_modes_faults :
    validateDataVolumeSpec demoWebhookEnv Operation.create "spec" emptyAccessModesSpec
      = none := by decide
